import Mathlib

set_option maxRecDepth 16384

/-!
Verification of the typer-cli generation scripts
(`scripts/fetch_common_words.py`, `scripts/generate_trigrams.py`,
`scripts/update_bigrams.py`).

Python floats are modelled as exact rationals (`ℚ`), Python ints as `ℤ`
(or `ℕ` for fixed module constants), Python strings as `String`.
`round(x, p)` is modelled by `pyRound` (ties to even, Python's documented
rounding), list slicing `l[:n]` by `pyTake` (including Python's negative
index semantics), `a in b` on strings by `isSub`, `sep.join(l)` by
`pyJoin`, and a Python exception by an `Except` result.
-/

/-- Python `l[:n]` for an `int` bound `n`: a nonnegative `n` keeps the
first `n` elements, a negative `n` drops the last `-n` elements. -/
def pyTake {α : Type} (n : ℤ) (l : List α) : List α :=
  if 0 ≤ n then l.take n.toNat else l.take (l.length - (-n).toNat)

/-- Round a rational to the nearest integer, ties to even
(the rounding used by Python's builtin `round`). -/
def pyRound0 (x : ℚ) : ℤ :=
  if x - ⌊x⌋ < 1/2 then ⌊x⌋
  else if 1/2 < x - ⌊x⌋ then ⌊x⌋ + 1
  else if ⌊x⌋ % 2 = 0 then ⌊x⌋ else ⌊x⌋ + 1

/-- Python `round(x, p)`: round to `p` decimal places, ties to even. -/
def pyRound (x : ℚ) (p : ℕ) : ℚ :=
  (pyRound0 (x * 10 ^ p) : ℚ) / 10 ^ p

/-- Bool-valued substring test on character lists: Python's `needle in hay`. -/
def isSub (n : List Char) : List Char → Bool
  | [] => n.isEmpty
  | c :: t => n.isPrefixOf (c :: t) || isSub n t

/-- Python `needle in hay` for strings. -/
def pyIn (needle hay : String) : Bool :=
  isSub needle.data hay.data

/-- Python `sep.join(l)`. -/
def pyJoin (sep : String) : List String → String
  | [] => ""
  | [s] => s
  | s :: t :: r => s ++ sep ++ pyJoin sep (t :: r)

/-- Python `d[k]` lookup on a dict modelled as an association list
(keys are unique in the source dicts; the first match is taken). -/
def dictFind (d : List (String × List String)) (k : String) : Option (List String) :=
  (d.find? (fun p => p.1 == k)).map Prod.snd

/-- Python `d.get(k, default)`. -/
def dictGet (d : List (String × List String)) (k : String)
    (default : List String) : List String :=
  (dictFind d k).getD default

/-- Decimal digits of a natural number, via `Nat.repr`. -/
def natStr (n : ℕ) : String := Nat.repr n

/-- Rendering of a nonnegative integer `n` of hundredths/thousandths as a
fixed-point decimal with `p` places. -/
def fmtPad (n : ℤ) (p : ℕ) : String :=
  let m := n.toNat
  let digits := natStr (m % 10 ^ p)
  natStr (m / 10 ^ p) ++ "." ++
    String.mk (List.replicate (p - digits.length) '0') ++ digits

/-- Python fixed-point formatting `f"{x:.pf}"` for the nonnegative exact
decimals produced by the scripts (weights already rounded to `p` places,
corpus frequencies given to at most `p` places). -/
def fmtFixed (x : ℚ) (p : ℕ) : String :=
  fmtPad (pyRound0 (x * 10 ^ p)) p

/-- Python `s.capitalize()` for ASCII strings: first character upper-cased,
the rest lower-cased. -/
def pyCapitalize (s : String) : String :=
  match s.data with
  | [] => ""
  | c :: rest => String.mk (c.toUpper :: rest.map Char.toLower)

/-- Python `s.lower()` for the ASCII strings the validator receives. -/
def pyLower (s : String) : String :=
  String.mk (s.data.map Char.toLower)

/-- The text accumulated by a `code += chunk(x)` loop over `l`,
starting from the empty string. -/
def emitChunks {α : Type} (f : α → String) : List α → String
  | [] => ""
  | x :: r => f x ++ emitChunks f r

/-- One step of a scan counting double-quote delimiters that are not
preceded by an escaping backslash (state: count so far, and whether the
previous character was an escaping backslash). -/
def uqStep (st : ℕ × Bool) (c : Char) : ℕ × Bool :=
  if st.2 then (st.1, false)
  else if c = '\\' then (st.1, true)
  else if c = '"' then (st.1 + 1, false)
  else (st.1, false)

/-- Number of unescaped double-quote delimiters in a string: the measure of
"balanced string delimiters" for emitted initializer text (balanced means
this count is even). -/
def unescapedQuotes (s : String) : ℕ :=
  (s.data.foldl uqStep (0, false)).1

namespace fetch_common_words

/-- `WORD_COUNT = 500` (scripts/fetch_common_words.py line 19). -/
def WORD_COUNT : ℕ := 500

/-- `normalize_frequencies` of scripts/fetch_common_words.py (lines 109-116):
`for i, (word, freq) in enumerate(words[:WORD_COUNT]):`
`normalized = 1.00 - (i / (WORD_COUNT - 1)) * 0.30;`
`result.append((word, freq, round(normalized, 3)))`. -/
def normalize_frequencies (words : List (String × ℤ)) : List (String × ℤ × ℚ) :=
  ((words.take WORD_COUNT).enum).map
    (fun p => (p.2.1, p.2.2,
      pyRound (1 - ((p.1 : ℚ) / ((WORD_COUNT : ℚ) - 1)) * (30/100)) 3))

/-- `word.replace('"', '\\"')` (scripts/fetch_common_words.py line 137):
each `"` in the word becomes `\"`. -/
def escape_quotes (s : String) : String :=
  String.mk (s.data.foldr
    (fun c acc => if c = '"' then '\\' :: '"' :: acc else c :: acc) [])

/-- The per-word line of `generate_rust_code`
(scripts/fetch_common_words.py lines 135-138):
`code += f'        Word::new("{word_escaped}", {freq:.3f}),\n'`
(the loop variable `freq` is the normalized weight). -/
def wordLine (w : String × ℤ × ℚ) : String :=
  "        Word::new(\"" ++ escape_quotes w.1 ++ "\", " ++ fmtFixed w.2.2 3 ++ "),\n"

/-- The provenance header of `generate_rust_code`
(scripts/fetch_common_words.py lines 125-133). -/
def wordHeader (language : String) : String :=
  "/// " ++ pyCapitalize language ++ " common words (frequency-ordered)\n" ++
  "///\n" ++
  "/// Source: " ++ (if language == "english" then "COCA" else "Lexique 3.83") ++
  " corpus\n" ++
  "/// Frequencies normalized to 0.70-1.00 range for typing practice\n" ++
  "/// Top 500 words selected from corpus analysis\n" ++
  "/// Last updated: 2025-12-30\n" ++
  "pub fn " ++ language ++ "_words() -> Vec<Word> \x7b\n" ++
  "    vec![\n"

/-- `generate_rust_code` of scripts/fetch_common_words.py (lines 119-145). -/
def generate_rust_code (language : String) (words : List (String × ℤ × ℚ)) : String :=
  (words.foldl (fun code w => code ++ wordLine w) (wordHeader language)) ++
    "    ]\n\x7d\n\n"

end fetch_common_words

namespace generate_trigrams

/-- `TRIGRAM_COUNT = 20` (scripts/generate_trigrams.py line 18). -/
def TRIGRAM_COUNT : ℕ := 20

/-- `validate_examples` of scripts/generate_trigrams.py (lines 86-97):
returns the `all_valid` flag together with the failing examples, in order
(each failure is printed as a warning by the source; the printed report is
modelled by recording the failing example). -/
def validate_examples (pattern : String) (examples : List String) :
    Bool × List String :=
  examples.foldl
    (fun acc exm =>
      if pyIn (pyLower pattern) (pyLower exm) then acc
      else (false, acc.2 ++ [exm]))
    (true, [])

/-- `normalize_frequencies` of scripts/generate_trigrams.py (lines 100-115):
`selected = trigrams[:count]`, then for each `i`,
`normalized = 1.00 - (i / (count - 1)) * 0.30` with no guard on `count`,
so a run with `count == 1` and a nonempty selection raises
`ZeroDivisionError` on its first iteration. -/
def normalize_frequencies (trigrams : List (String × ℚ)) (count : ℤ) :
    Except String (List (String × ℚ × ℚ)) :=
  let selected := pyTake count trigrams
  if count = 1 ∧ selected ≠ [] then Except.error "ZeroDivisionError"
  else Except.ok (selected.enum.map
    (fun p => (p.2.1, p.2.2,
      pyRound (1 - ((p.1 : ℚ) / ((count : ℚ) - 1)) * (30/100)) 2)))

/-- `examples.get(trigram, ["example"] * 10)[:10]`
(scripts/generate_trigrams.py line 134). -/
def example_list (examples : List (String × List String)) (trigram : String) :
    List String :=
  (dictGet examples trigram (List.replicate 10 "example")).take 10

/-- The per-trigram chunk of `generate_rust_code`
(scripts/generate_trigrams.py lines 133-139). -/
def trigramLine (examples : List (String × List String))
    (t : String × ℚ × ℚ) : String :=
  "        // Corpus: " ++ fmtFixed t.2.1 2 ++ "%\n" ++
  "        Trigram::new(\"" ++ t.1 ++ "\", " ++ fmtFixed t.2.2 2 ++
  ", &[\"" ++ pyJoin "\", \"" (example_list examples t.1) ++ "\"]),\n"

/-- The provenance header of `generate_rust_code`
(scripts/generate_trigrams.py lines 123-131). -/
def trigramHeader (language today : String) : String :=
  "/// " ++ pyCapitalize language ++ " language trigrams (frequency-ordered)\n" ++
  "///\n" ++
  "/// Source: " ++ (if language == "english" then "Peter Norvig"
    else "Lexique database & French corpus studies") ++ "\n" ++
  "/// Frequencies normalized to 0.70-1.00 range for typing practice\n" ++
  "/// Top " ++ natStr TRIGRAM_COUNT ++ " trigrams selected from corpus analysis\n" ++
  "/// Last updated: " ++ today ++ "\n" ++
  "pub fn " ++ language ++ "_trigrams() -> Vec<Trigram> \x7b\n" ++
  "    vec![\n"

/-- `generate_rust_code` of scripts/generate_trigrams.py (lines 118-144);
`date.today()` is the explicit `today` argument. -/
def generate_rust_code (language : String) (trigrams : List (String × ℚ × ℚ))
    (examples : List (String × List String)) (today : String) : String :=
  (trigrams.foldl (fun code t => code ++ trigramLine examples t)
    (trigramHeader language today)) ++ "    ]\n\x7d\n"

/-- The per-language validation loop of `main`
(scripts/generate_trigrams.py lines 159-172), with the language's table,
selected count and example dict as parameters:
`for trigram, _ in TOP[:COUNT]:`
`if not validate_examples(trigram, EXAMPLES.get(trigram, [])): valid = False`. -/
def validateLanguage (top : List (String × ℚ)) (count : ℤ)
    (examples : List (String × List String)) : Bool :=
  (pyTake count top).foldl
    (fun valid t =>
      if (validate_examples t.1 (dictGet examples t.1 [])).1 then valid else false)
    true

/-- The per-language flow of `main` (scripts/generate_trigrams.py
lines 159-212): validate, then normalize and emit unconditionally.
Returns the language's validity flag and the emitted text. -/
def run_language (language : String) (top : List (String × ℚ)) (count : ℤ)
    (examples : List (String × List String)) (today : String) :
    Bool × Except String String :=
  (validateLanguage top count examples,
   (normalize_frequencies top count).map
     (fun r => generate_rust_code language r examples today))

end generate_trigrams

namespace update_bigrams

/-- `BIGRAM_COUNT = 40` (scripts/update_bigrams.py line 18). -/
def BIGRAM_COUNT : ℕ := 40

/-- `normalize_frequencies` of scripts/update_bigrams.py (lines 152-167):
`selected = bigrams[:count]`, then for each `i`,
`normalized = 1.00 - (i / (count - 1)) * 0.30 if count > 1 else 1.00`,
`result.append((bigram, freq, round(normalized, 2)))`. -/
def normalize_frequencies (bigrams : List (String × ℚ)) (count : ℤ) :
    List (String × ℚ × ℚ) :=
  (pyTake count bigrams).enum.map
    (fun p => (p.2.1, p.2.2,
      pyRound (if 1 < count then 1 - ((p.1 : ℚ) / ((count : ℚ) - 1)) * (30/100) else 1) 2))

/-- `examples_dict.get(bigram, [f"ex{i}" for i in range(10)])` followed by
the `[:10]` slice at the join (scripts/update_bigrams.py lines 186-187). -/
def bigram_examples (examples_dict : List (String × List String))
    (bigram : String) : List String :=
  (dictGet examples_dict bigram ((List.range 10).map (fun i => "ex" ++ natStr i))).take 10

/-- The per-bigram chunk of `generate_rust_function`
(scripts/update_bigrams.py lines 185-191). -/
def bigramLine (examples_dict : List (String × List String))
    (b : String × ℚ × ℚ) : String :=
  "        // Corpus: " ++ fmtFixed b.2.1 2 ++ "%\n" ++
  "        Bigram::new(\"" ++ b.1 ++ "\", " ++ fmtFixed b.2.2 2 ++
  ", &[\"" ++ pyJoin "\", \"" (bigram_examples examples_dict b.1) ++ "\"]),\n"

/-- The provenance header of `generate_rust_function`
(scripts/update_bigrams.py lines 175-183). -/
def bigramHeader (language countStr source today : String) : String :=
  "/// " ++ language ++ " language bigrams (frequency-ordered)\n" ++
  "///\n" ++
  "/// Source: " ++ source ++ "\n" ++
  "/// Frequencies normalized to 0.70-1.00 range for typing practice\n" ++
  "/// Top " ++ countStr ++ " bigrams selected from top 100 corpus analysis\n" ++
  "/// Last updated: " ++ today ++ "\n" ++
  "pub fn " ++ (pyLower language ++ "_bigrams") ++ "() -> Vec<Bigram> \x7b\n" ++
  "    vec![\n"

/-- `generate_rust_function` of scripts/update_bigrams.py (lines 170-195);
`date.today()` is the explicit `today` argument. -/
def generate_rust_function (language : String) (bigrams : List (String × ℚ × ℚ))
    (examples_dict : List (String × List String)) (source : String)
    (today : String) : String :=
  (bigrams.foldl (fun code b => code ++ bigramLine examples_dict b)
    (bigramHeader language (natStr bigrams.length) source today)) ++ "    ]\n\x7d\n"


/-- `FRENCH_EXAMPLES` of scripts/update_bigrams.py (lines 74-116). -/
def FRENCH_EXAMPLES : List (String × List String) := [
  ("es", ["les", "des", "mes", "ses", "ces", "tes", "très", "esprit", "reste", "gestes"]),
  ("le", ["le", "les", "lequel", "lent", "lecteur", "léger", "lever", "lettre", "parler", "aile"]),
  ("de", ["de", "des", "depuis", "devant", "dedans", "dehors", "demain", "devenir", "dessin", "idée"]),
  ("en", ["en", "ment", "bien", "rien", "encore", "enfant", "pendant", "moment", "content", "seulement"]),
  ("re", ["re", "entre", "faire", "reste", "être", "prendre", "regarder", "rendre", "représenter", "rencontre"]),
  ("nt", ["ment", "lent", "content", "sont", "maintenant", "avant", "enfant", "moment", "pendant", "souvent"]),
  ("on", ["on", "bon", "son", "non", "dont", "long", "selon", "maison", "raison", "garçon"]),
  ("er", ["premier", "dernier", "aller", "mer", "cher", "hier", "hiver", "verre", "terre", "guerre"]),
  ("te", ["te", "vite", "petite", "juste", "texte", "tête", "temps", "cette", "mettre", "lettre"]),
  ("el", ["el", "tel", "bel", "cruel", "elle", "belle", "celle", "quelle", "nouvelle", "naturel"]),
  ("an", ["an", "dans", "avant", "sans", "blanc", "grand", "ancien", "France", "manger", "changer"]),
  ("et", ["et", "cette", "mettre", "sujet", "petit", "pouvoir", "secret", "complet", "projet", "objet"]),
  ("qu", ["que", "qui", "quoi", "quelque", "quel", "question", "pourquoi", "quand", "qualité", "quinze"]),
  ("ou", ["pour", "vous", "nous", "tout", "jour", "où", "ouvrir", "sous", "rouge", "lourd"]),
  ("me", ["me", "même", "femme", "homme", "moment", "merci", "mesure", "membre", "permettre", "semaine"]),
  ("se", ["se", "cesse", "penser", "promesse", "selon", "semaine", "cette", "service", "ensemble", "présent"]),
  ("it", ["petit", "écrit", "dit", "fait", "suite", "politique", "situation", "habiter", "titre", "site"]),
  ("la", ["la", "là", "place", "classe", "village", "blanc", "plan", "plat", "large", "plage"]),
  ("ai", ["ai", "mais", "fait", "jamais", "vrai", "laid", "aigle", "aider", "faire", "maison"]),
  ("ne", ["ne", "une", "personne", "bonne", "jeune", "semaine", "donner", "prendre", "venir", "tenir"]),
  ("ur", ["pour", "jour", "toujours", "sur", "sûr", "autour", "futur", "mesure", "nature", "figure"]),
  ("ce", ["ce", "cette", "celle", "ceci", "celle-ci", "France", "centre", "cela", "cesser", "accepter"]),
  ("is", ["mais", "dis", "fois", "jamais", "maison", "choisir", "histoire", "justement", "réaliser", "français"]),
  ("ra", ["sera", "aura", "dira", "fera", "France", "travail", "courage", "grand", "traiter", "bravo"]),
  ("ti", ["action", "nation", "question", "information", "attention", "position", "condition", "tradition", "relation", "situation"]),
  ("ri", ["écrire", "après", "esprit", "prix", "crier", "ouvrir", "sourire", "métier", "histoire", "origine"]),
  ("co", ["comme", "encore", "corps", "école", "coin", "coeur", "compte", "accord", "économie", "découvrir"]),
  ("ns", ["dans", "sans", "cons", "ensemble", "considérer", "conseil", "construction", "transport", "penser", "ainsi"]),
  ("at", ["état", "chat", "bataille", "nature", "quatre", "atelier", "appartement", "attention", "atteindre", "attendre"]),
  ("ma", ["mais", "main", "matin", "manger", "maison", "maintenant", "image", "demain", "demande", "manquer"]),
  ("ér", ["très", "première", "général", "opération", "américain", "numéro", "littéraire", "intérieur", "supérieur", "matériel"]),
  ("és", ["présent", "résultat", "désir", "désormais", "président", "réserver", "réseau", "désigner", "résoudre", "désespoir"]),
  ("ét", ["été", "être", "état", "étude", "détail", "société", "poète", "variété", "éternité", "étrange"]),
  ("èr", ["père", "mère", "frère", "première", "dernière", "manière", "lumière", "matière", "rivière", "prière"]),
  ("ée", ["année", "journée", "idée", "armée", "entrée", "soirée", "durée", "pensée", "vallée", "musée"]),
  ("à ", ["à la", "à le", "à ce", "grâce à", "jusqu\x27à", "quant à", "là-bas", "voilà", "déjà", "au-delà"]),
  ("ça", ["ça", "français", "garçon", "façon", "leçon", "reçu", "aperçu", "commençant", "avançant", "traçant"]),
  ("ôt", ["tôt", "bientôt", "côté", "aussitôt", "tantôt", "sitôt", "plutôt", "dépôt", "impôt", "entrepôt"]),
  ("ès", ["très", "après", "près", "auprès", "exprès", "progrès", "congrès", "accès", "succès", "procès"]),
  ("çu", ["reçu", "aperçu", "déçu", "conçu", "perçu", "reçue", "aperçue", "déçue", "conçue", "perçue"])
]

end update_bigrams

/-- Rounding an integer value returns it unchanged. -/
theorem pyRound0_intCast (n : ℤ) : pyRound0 (n : ℚ) = n := by
  norm_num [pyRound0]

/-- Evaluation rule for `pyRound0` at exact integer values. -/
theorem pyRound0_eq_of_cast {x : ℚ} {n : ℤ} (h : x = (n : ℚ)) : pyRound0 x = n := by
  rw [h, pyRound0_intCast]

/-- Evaluation rule for `pyRound` when `x * 10 ^ p` is an exact integer. -/
theorem pyRound_eq_of_cast {x : ℚ} {p : ℕ} {n : ℤ} (h : x * 10 ^ p = (n : ℚ)) :
    pyRound x p = (n : ℚ) / 10 ^ p := by
  rw [pyRound, pyRound0_eq_of_cast h]

/-- Evaluation rule for `fmtFixed` when `x * 10 ^ p` is an exact integer. -/
theorem fmtFixed_eq_of_cast {x : ℚ} {p : ℕ} {n : ℤ} (h : x * 10 ^ p = (n : ℚ)) :
    fmtFixed x p = fmtPad n p := by
  rw [fmtFixed, pyRound0_eq_of_cast h]

theorem floor_le_pyRound0 (x : ℚ) : ⌊x⌋ ≤ pyRound0 x := by
  unfold pyRound0
  split_ifs <;> omega

theorem pyRound0_le_floor_add_one (x : ℚ) : pyRound0 x ≤ ⌊x⌋ + 1 := by
  unfold pyRound0
  split_ifs <;> omega

/-- `pyRound0` is monotone. -/
theorem pyRound0_mono {x y : ℚ} (h : x ≤ y) : pyRound0 x ≤ pyRound0 y := by
  rcases lt_or_eq_of_le (Int.floor_le_floor h) with hf | hf
  · calc pyRound0 x ≤ ⌊x⌋ + 1 := pyRound0_le_floor_add_one x
      _ ≤ ⌊y⌋ := by omega
      _ ≤ pyRound0 y := floor_le_pyRound0 y
  · unfold pyRound0
    rw [← hf]
    split_ifs <;> first | omega | linarith

/-- `pyRound` is monotone at any fixed precision. -/
theorem pyRound_mono {x y : ℚ} (p : ℕ) (h : x ≤ y) : pyRound x p ≤ pyRound y p := by
  unfold pyRound
  have h10 : (0 : ℚ) < 10 ^ p := by positivity
  refine (div_le_div_iff_of_pos_right h10).mpr ?_
  exact_mod_cast pyRound0_mono (mul_le_mul_of_nonneg_right h (le_of_lt h10))

/-- Characterization of `List.isPrefixOf` on character lists. -/
theorem isPre_iff (a h : List Char) : a.isPrefixOf h = true ↔ ∃ q, h = a ++ q := by
  induction a generalizing h with
  | nil =>
    simp only [List.isPrefixOf, List.nil_append, true_iff]
    exact ⟨h, rfl⟩
  | cons c t ih =>
    cases h with
    | nil => simp [List.isPrefixOf]
    | cons d u =>
      simp only [List.isPrefixOf, Bool.and_eq_true, beq_iff_eq]
      constructor
      · rintro ⟨rfl, hp⟩
        rcases (ih u).mp hp with ⟨q, rfl⟩
        exact ⟨q, rfl⟩
      · rintro ⟨q, hq⟩
        injection hq with h1 h2
        subst h1
        exact ⟨rfl, (ih u).mpr ⟨q, h2⟩⟩

/-- Characterization of the substring test: `isSub a h` holds exactly when
`h` splits as `p ++ a ++ q`. -/
theorem isSub_iff (a h : List Char) : isSub a h = true ↔ ∃ p q, h = p ++ (a ++ q) := by
  induction h with
  | nil =>
    simp only [isSub, List.isEmpty_iff]
    constructor
    · rintro rfl
      exact ⟨[], [], rfl⟩
    · rintro ⟨p, q, hpq⟩
      rcases List.append_eq_nil.mp hpq.symm with ⟨rfl, h2⟩
      exact (List.append_eq_nil.mp h2).1
  | cons c t ih =>
    simp only [isSub, Bool.or_eq_true, isPre_iff, ih]
    constructor
    · rintro (⟨q, hq⟩ | ⟨p, q, rfl⟩)
      · exact ⟨[], q, by simpa using hq⟩
      · exact ⟨c :: p, q, rfl⟩
    · rintro ⟨p, q, hpq⟩
      cases p with
      | nil => exact Or.inl ⟨q, by simpa using hpq⟩
      | cons d r =>
        injection hpq with h1 h2
        exact Or.inr ⟨r, q, h2⟩

theorem isSub_of_parts {a h : List Char} (p q : List Char)
    (hh : h = p ++ (a ++ q)) : isSub a h = true :=
  (isSub_iff a h).mpr ⟨p, q, hh⟩

theorem isSub_trans {a b c : List Char} (h1 : isSub a b = true)
    (h2 : isSub b c = true) : isSub a c = true := by
  rcases (isSub_iff _ _).mp h2 with ⟨p2, q2, rfl⟩
  rcases (isSub_iff _ _).mp h1 with ⟨p, q, rfl⟩
  exact isSub_of_parts (p2 ++ p) (q ++ q2) (by simp [List.append_assoc])

/-- Every member of a joined list occurs as a substring of the join. -/
theorem isSub_mem_pyJoin (sep : String) (l : List String) (e : String)
    (he : e ∈ l) : isSub e.data (pyJoin sep l).data = true := by
  induction l with
  | nil => cases he
  | cons a r ih =>
    cases r with
    | nil =>
      rcases List.mem_singleton.mp he with rfl
      exact isSub_of_parts [] [] (by simp [pyJoin])
    | cons b r2 =>
      rcases List.mem_cons.mp he with rfl | he2
      · exact isSub_of_parts [] ((sep ++ pyJoin sep (b :: r2)).data)
          (by simp [pyJoin, String.data_append, List.append_assoc])
      · rcases (isSub_iff _ _).mp (ih he2) with ⟨p, q, hq⟩
        exact isSub_of_parts ((a ++ sep).data ++ p) q
          (by simp [pyJoin, String.data_append, List.append_assoc, hq])

/-- Every entry's chunk occurs as a substring of the emitted chunk stream. -/
theorem isSub_emitChunks {α : Type} (f : α → String) (l : List α) (x : α)
    (hx : x ∈ l) : isSub (f x).data (emitChunks f l).data = true := by
  induction l with
  | nil => cases hx
  | cons a r ih =>
    rcases List.mem_cons.mp hx with rfl | hx2
    · exact isSub_of_parts [] (emitChunks f r).data
        (by simp [emitChunks, String.data_append])
    · rcases (isSub_iff _ _).mp (ih hx2) with ⟨p, q, hq⟩
      exact isSub_of_parts ((f a).data ++ p) q
        (by simp [emitChunks, String.data_append, List.append_assoc, hq])

/-- A substring of `mid` is a substring of `pre ++ mid ++ post`. -/
theorem isSub_append3 {e : List Char} (pre mid post : String)
    (h : isSub e mid.data = true) : isSub e (pre ++ mid ++ post).data = true := by
  rcases (isSub_iff _ _).mp h with ⟨p, q, hq⟩
  exact isSub_of_parts (pre.data ++ p) (q ++ post.data)
    (by simp [String.data_append, hq, List.append_assoc])

/-- A `code += chunk(x)` loop appends the chunk stream to its start text. -/
theorem foldl_append_emitChunks {α : Type} (f : α → String) (l : List α)
    (init : String) :
    l.foldl (fun code x => code ++ f x) init = init ++ emitChunks f l := by
  induction l generalizing init with
  | nil => simp [emitChunks, String.append_empty]
  | cons a r ih => simp [emitChunks, ih, String.append_assoc]

theorem head?_eq_getElem0 {α : Type} (l : List α) : l.head? = l[0]? := by
  cases l <;> simp

/-- Indexing an enumerate-and-map loop. -/
theorem getElem?_enumMap {α β : Type} (g : ℕ × α → β) (l : List α) (i : ℕ) :
    (l.enum.map g)[i]? = (l[i]?).map (fun a => g (i, a)) := by
  cases h : l[i]? <;> simp [List.getElem?_enum, h]

theorem getElem?_norm_bigrams (l : List (String × ℚ)) (count : ℤ) (i : ℕ) :
    (update_bigrams.normalize_frequencies l count)[i]? =
      ((pyTake count l)[i]?).map (fun a =>
        (a.1, a.2,
          pyRound (if 1 < count then
            1 - ((i : ℚ) / ((count : ℚ) - 1)) * (30/100) else 1) 2)) := by
  simp only [update_bigrams.normalize_frequencies]
  rw [getElem?_enumMap]

theorem length_norm_bigrams (l : List (String × ℚ)) (count : ℤ) :
    (update_bigrams.normalize_frequencies l count).length = (pyTake count l).length := by
  simp [update_bigrams.normalize_frequencies, List.enum_length]

theorem getElem?_norm_words (l : List (String × ℤ)) (i : ℕ) :
    (fetch_common_words.normalize_frequencies l)[i]? =
      ((l.take fetch_common_words.WORD_COUNT)[i]?).map (fun a =>
        (a.1, a.2,
          pyRound (1 - ((i : ℚ) / ((fetch_common_words.WORD_COUNT : ℚ) - 1)) * (30/100)) 3)) := by
  simp only [fetch_common_words.normalize_frequencies]
  rw [getElem?_enumMap]

theorem length_norm_words (l : List (String × ℤ)) :
    (fetch_common_words.normalize_frequencies l).length =
      (l.take fetch_common_words.WORD_COUNT).length := by
  simp [fetch_common_words.normalize_frequencies, List.enum_length]

/-- The non-raising branch of the trigram normalizer. -/
theorem norm_trigrams_ok (l : List (String × ℚ)) (count : ℤ)
    (h : ¬(count = 1 ∧ pyTake count l ≠ [])) :
    generate_trigrams.normalize_frequencies l count =
      Except.ok ((pyTake count l).enum.map
        (fun p => (p.2.1, p.2.2,
          pyRound (1 - ((p.1 : ℚ) / ((count : ℚ) - 1)) * (30/100)) 2))) := by
  simp [generate_trigrams.normalize_frequencies, h]

/-- An "all true, else false" accumulator loop computes a conjunction. -/
theorem foldl_and_all {α : Type} (P : α → Bool) (l : List α) (b : Bool) :
    l.foldl (fun valid t => if P t then valid else false) b = (b && l.all P) := by
  induction l generalizing b with
  | nil => simp
  | cons a r ih =>
    rw [List.foldl_cons, ih]
    by_cases h : P a = true
    · simp [h]
    · simp only [Bool.not_eq_true] at h
      simp [h]

/-- `validate_examples` returns the conjunction of the per-example checks
and collects exactly the failing examples, in order. -/
theorem validate_examples_eq (pattern : String) (examples : List String) :
    generate_trigrams.validate_examples pattern examples =
      (examples.all (fun e => pyIn (pyLower pattern) (pyLower e)),
       examples.filter (fun e => !(pyIn (pyLower pattern) (pyLower e)))) := by
  suffices h : ∀ (b : Bool) (ws : List String),
      examples.foldl (fun acc exm => if pyIn (pyLower pattern) (pyLower exm) then acc
        else (false, acc.2 ++ [exm])) (b, ws) =
      (b && examples.all (fun e => pyIn (pyLower pattern) (pyLower e)),
       ws ++ examples.filter (fun e => !(pyIn (pyLower pattern) (pyLower e)))) by
    simpa [generate_trigrams.validate_examples] using h true []
  intro b ws
  induction examples generalizing b ws with
  | nil => simp
  | cons e r ih =>
    by_cases hok : pyIn (pyLower pattern) (pyLower e) = true
    · simp [hok, ih]
    · simp only [Bool.not_eq_true] at hok
      simp [hok, ih]

/-- The per-language validation loop computes the conjunction of the
per-unit validations over the selected window. -/
theorem validateLanguage_eq (top : List (String × ℚ)) (count : ℤ)
    (examples : List (String × List String)) :
    generate_trigrams.validateLanguage top count examples =
      (pyTake count top).all (fun t =>
        (generate_trigrams.validate_examples t.1 (dictGet examples t.1 [])).1) := by
  simpa [generate_trigrams.validateLanguage] using
    foldl_and_all (fun t : String × ℚ =>
      (generate_trigrams.validate_examples t.1 (dictGet examples t.1 [])).1)
      (pyTake count top) true

theorem pyRound_intCast (n : ℤ) (p : ℕ) : pyRound (n : ℚ) p = (n : ℚ) := by
  rw [pyRound_eq_of_cast (show ((n : ℚ)) * 10 ^ p = ((n * 10 ^ p : ℤ) : ℚ) by
    push_cast; ring)]
  push_cast
  rw [mul_div_assoc, div_self (by positivity), mul_one]

theorem pyRound_one (p : ℕ) : pyRound (1 : ℚ) p = 1 := by
  simpa using pyRound_intCast 1 p

/-- Claim C2: the trigram Validator flags exactly the failing
(unit, example) pairs (flag = conjunction of per-example checks, report =
the failing examples in order), the per-language loop aggregates the
per-unit flags, and `"th"` with `["the", "that", "cat"]` flags only
`"cat"`.  The bigram pipeline's own data holds the failing pair
`("et", "pouvoir")`, on which this check fails. -/
theorem claim_C2 :
    (∀ (pattern : String) (examples : List String),
      generate_trigrams.validate_examples pattern examples =
        (examples.all (fun e => pyIn (pyLower pattern) (pyLower e)),
         examples.filter (fun e => !(pyIn (pyLower pattern) (pyLower e))))) ∧
    (∀ (top : List (String × ℚ)) (count : ℤ) (examples : List (String × List String)),
      generate_trigrams.validateLanguage top count examples =
        (pyTake count top).all (fun t =>
          (generate_trigrams.validate_examples t.1 (dictGet examples t.1 [])).1)) ∧
    generate_trigrams.validate_examples "th" ["the", "that", "cat"] =
      (false, ["cat"]) ∧
    dictFind update_bigrams.FRENCH_EXAMPLES "et" =
      some ["et", "cette", "mettre", "sujet", "petit", "pouvoir", "secret",
        "complet", "projet", "objet"] ∧
    generate_trigrams.validate_examples "et"
      (dictGet update_bigrams.FRENCH_EXAMPLES "et" []) = (false, ["pouvoir"]) :=
  ⟨validate_examples_eq, validateLanguage_eq, by decide, by decide, by decide⟩

/-- Claim C4: at target count 1, the bigram Normalizer returns the single
selected entry with weight exactly 1.00 (its `count > 1` guard skips the
interpolation), but the trigram Normalizer raises `ZeroDivisionError` on
every nonempty list. -/
theorem claim_C4 :
    (∀ (l : List (String × ℚ)), l ≠ [] →
      generate_trigrams.normalize_frequencies l 1 =
        Except.error "ZeroDivisionError") ∧
    (∀ (a : String × ℚ) (l : List (String × ℚ)),
      update_bigrams.normalize_frequencies (a :: l) 1 = [(a.1, a.2, 1)]) ∧
    update_bigrams.normalize_frequencies [("th", 3.56)] 1 = [("th", 3.56, 1)] ∧
    generate_trigrams.normalize_frequencies [("the", 3.51)] 1 =
      Except.error "ZeroDivisionError" := by
  have htake : ∀ (a : String × ℚ) (l : List (String × ℚ)),
      pyTake 1 (a :: l) = [a] := by
    intro a l
    simp [pyTake]
  refine ⟨?_, ?_, ?_, ?_⟩
  · intro l hl
    have hsel : pyTake 1 l ≠ [] := by
      cases l with
      | nil => exact absurd rfl hl
      | cons a r => simp [htake]
    simp [generate_trigrams.normalize_frequencies, hsel]
  · intro a l
    simp [update_bigrams.normalize_frequencies, htake, List.enum, List.enumFrom,
      pyRound_one]
  · norm_num [update_bigrams.normalize_frequencies, pyTake, pyRound, pyRound0,
      List.enum, List.enumFrom]
  · norm_num [generate_trigrams.normalize_frequencies, pyTake]

theorem claim_C4_witness :
    generate_trigrams.normalize_frequencies [("ing", 1.58)] 1 =
      Except.error "ZeroDivisionError" :=
  claim_C4.1 [("ing", 1.58)] (by simp)

/-- Claim C3 counterexample: at target count `N ≤ 0` neither Normalizer
fails fast; `N = 0` returns an empty result (from which an empty block
would be emitted) and `N = -1` silently truncates the table. -/
theorem claim_C3_counterexample :
    generate_trigrams.normalize_frequencies [("the", 3.51), ("and", 1.59)] 0 =
      Except.ok [] ∧
    update_bigrams.normalize_frequencies [("th", 3.56), ("he", 3.07)] 0 = [] ∧
    generate_trigrams.normalize_frequencies
      [("th", 3.56), ("he", 3.07), ("in", 2.43)] (-1) =
      Except.ok [("th", 3.56, 1), ("he", 3.07, 1.15)] ∧
    update_bigrams.normalize_frequencies
      [("th", 3.56), ("he", 3.07), ("in", 2.43)] (-1) =
      [("th", 3.56, 1), ("he", 3.07, 1)] := by
  refine ⟨?_, ?_, ?_, ?_⟩ <;>
    norm_num [generate_trigrams.normalize_frequencies,
      update_bigrams.normalize_frequencies, pyTake, pyRound, pyRound0,
      List.enum, List.enumFrom]

/-- Claim C3 (amended): for `N ≤ 0` the Normalizers raise no error and
return normally; `N = 0` yields the empty list, `N < 0` yields the table
truncated from the end (with trigram weights that can exceed 1.00, see the
counterexample). -/
theorem claim_C3_amended :
    (∀ (l : List (String × ℚ)) (count : ℤ), count ≤ 0 →
      (∃ r, generate_trigrams.normalize_frequencies l count = Except.ok r ∧
        r.length = (pyTake count l).length) ∧
      (update_bigrams.normalize_frequencies l count).length =
        (pyTake count l).length) ∧
    (∀ l : List (String × ℚ),
      update_bigrams.normalize_frequencies l 0 = [] ∧
      generate_trigrams.normalize_frequencies l 0 = Except.ok []) := by
  constructor
  · intro l count hc
    have h1 : ¬(count = 1 ∧ pyTake count l ≠ []) := by
      rintro ⟨rfl, -⟩
      omega
    refine ⟨⟨_, norm_trigrams_ok l count h1, ?_⟩, length_norm_bigrams l count⟩
    simp [List.enum_length]
  · intro l
    have h0 : pyTake 0 l = [] := by simp [pyTake]
    constructor
    · simp [update_bigrams.normalize_frequencies, h0]
    · simp [generate_trigrams.normalize_frequencies, h0]

theorem claim_C3_witness :
    (∃ r, generate_trigrams.normalize_frequencies [("th", 3.56)] (-2) =
        Except.ok r ∧ r.length = (pyTake (-2) [("th", (3.56 : ℚ))]).length) ∧
    (update_bigrams.normalize_frequencies [("th", 3.56)] (-2)).length =
      (pyTake (-2) [("th", (3.56 : ℚ))]).length :=
  claim_C3_amended.1 [("th", 3.56)] (-2) (by norm_num)

/-- Claim C9: each Emitter is deterministic — two runs on equal
WeightedEntry input, equal example sets, the same source citation and the
same generation date produce identical output text. -/
theorem claim_C9 :
    (∀ (lang : String) (tri tri' : List (String × ℚ × ℚ))
       (ex ex' : List (String × List String)) (d d' : String),
      tri = tri' → ex = ex' → d = d' →
      generate_trigrams.generate_rust_code lang tri ex d =
        generate_trigrams.generate_rust_code lang tri' ex' d') ∧
    (∀ (lang : String) (bi bi' : List (String × ℚ × ℚ))
       (ex ex' : List (String × List String)) (src src' d d' : String),
      bi = bi' → ex = ex' → src = src' → d = d' →
      update_bigrams.generate_rust_function lang bi ex src d =
        update_bigrams.generate_rust_function lang bi' ex' src' d') ∧
    (∀ (lang : String) (ws ws' : List (String × ℤ × ℚ)), ws = ws' →
      fetch_common_words.generate_rust_code lang ws =
        fetch_common_words.generate_rust_code lang ws') := by
  refine ⟨?_, ?_, ?_⟩ <;> intros <;> subst_vars <;> rfl

theorem claim_C9_witness :
    generate_trigrams.generate_rust_code "english" [("the", 3.51, 1)] []
        "2026-10-12" =
      generate_trigrams.generate_rust_code "english" [("the", 3.51, 1)] []
        "2026-10-12" :=
  claim_C9.1 "english" [("the", 3.51, 1)] [("the", 3.51, 1)] [] []
    "2026-10-12" "2026-10-12" rfl rfl rfl

/-- Claim C10: the Validator passes vacuously on an empty example list;
a unit absent from the ExampleSet yields an empty lookup, passes with no
warning, never downgrades the per-language flag, and surfaces only as a
placeholder sequence at emission. -/
theorem claim_C10 :
    (∀ pattern : String,
      generate_trigrams.validate_examples pattern [] = (true, [])) ∧
    (∀ (examples : List (String × List String)) (t : String),
      dictFind examples t = none →
      generate_trigrams.validate_examples t (dictGet examples t []) = (true, []) ∧
      generate_trigrams.example_list examples t = List.replicate 10 "example" ∧
      update_bigrams.bigram_examples examples t =
        (List.range 10).map (fun i => "ex" ++ natStr i)) ∧
    (∀ (top : List (String × ℚ)) (count : ℤ)
       (examples : List (String × List String)),
      (∀ t ∈ (pyTake count top).map Prod.fst, dictFind examples t = none) →
      generate_trigrams.validateLanguage top count examples = true) := by
  refine ⟨?_, ?_, ?_⟩
  · intro pattern
    rfl
  · intro examples t hmiss
    have hget : dictGet examples t [] = [] := by simp [dictGet, hmiss]
    refine ⟨by rw [hget]; rfl, ?_, ?_⟩
    · simp [generate_trigrams.example_list, dictGet, hmiss]
    · simp only [update_bigrams.bigram_examples, dictGet, hmiss, Option.getD_none]
      decide
  · intro top count examples hmiss
    rw [validateLanguage_eq]
    apply List.all_eq_true.mpr
    intro t ht
    have hn := hmiss t.1 (List.mem_map_of_mem Prod.fst ht)
    have hget : dictGet examples t.1 [] = [] := by simp [dictGet, hn]
    rw [hget]
    rfl

theorem claim_C10_witness :
    generate_trigrams.validate_examples "zz" (dictGet [("ab", ["x"])] "zz" []) =
      (true, []) ∧
    generate_trigrams.example_list [("ab", ["x"])] "zz" =
      List.replicate 10 "example" ∧
    generate_trigrams.validateLanguage [("zz", 1)] 1 [("ab", ["x"])] = true :=
  ⟨(claim_C10.2.1 [("ab", ["x"])] "zz" (by decide)).1,
   (claim_C10.2.1 [("ab", ["x"])] "zz" (by decide)).2.1,
   claim_C10.2.2 [("zz", 1)] 1 [("ab", ["x"])] (by decide)⟩

/-- Claim C8: the example-bearing Emitters emit at most the first 10
registered examples in supplied order (`take 10` of the registered list),
substitute a fixed-length placeholder sequence of exactly 10 entries on a
lookup miss, and splice the joined example sequence into the emitted line. -/
theorem claim_C8 :
    (∀ (examples : List (String × List String)) (t : String) (l : List String),
      dictFind examples t = some l →
      generate_trigrams.example_list examples t = l.take 10 ∧
      update_bigrams.bigram_examples examples t = l.take 10 ∧
      (l.take 10).length ≤ 10) ∧
    (∀ (examples : List (String × List String)) (t : String),
      dictFind examples t = none →
      generate_trigrams.example_list examples t = List.replicate 10 "example" ∧
      update_bigrams.bigram_examples examples t =
        (List.range 10).map (fun i => "ex" ++ natStr i) ∧
      (generate_trigrams.example_list examples t).length = 10 ∧
      (update_bigrams.bigram_examples examples t).length = 10) ∧
    (∀ (examples : List (String × List String)) (t : String) (cf w : ℚ)
       (d : String),
      isSub (pyJoin "\", \"" (generate_trigrams.example_list examples t)).data
        (generate_trigrams.generate_rust_code "english" [(t, cf, w)]
          examples d).data = true) := by
  refine ⟨?_, ?_, ?_⟩
  · intro examples t l hfind
    refine ⟨?_, ?_, ?_⟩
    · simp [generate_trigrams.example_list, dictGet, hfind]
    · simp [update_bigrams.bigram_examples, dictGet, hfind]
    · rw [List.length_take]
      exact min_le_left _ _
  · intro examples t hmiss
    have h1 : generate_trigrams.example_list examples t =
        List.replicate 10 "example" := by
      simp [generate_trigrams.example_list, dictGet, hmiss]
    have h2 : update_bigrams.bigram_examples examples t =
        (List.range 10).map (fun i => "ex" ++ natStr i) := by
      simp only [update_bigrams.bigram_examples, dictGet, hmiss, Option.getD_none]
      decide
    refine ⟨h1, h2, ?_, ?_⟩
    · rw [h1]
      decide
    · rw [h2]
      decide
  · intro examples t cf w d
    have hsplit : generate_trigrams.generate_rust_code "english" [(t, cf, w)]
        examples d =
        generate_trigrams.trigramHeader "english" d ++
          generate_trigrams.trigramLine examples (t, cf, w) ++ "    ]\n\x7d\n" := rfl
    rw [hsplit]
    apply isSub_append3
    exact isSub_of_parts
      (("        // Corpus: " ++ fmtFixed cf 2 ++ "%\n" ++
        "        Trigram::new(\"" ++ t ++ "\", " ++ fmtFixed w 2 ++
        ", &[\"").data)
      (("\"]),\n" : String).data)
      (by simp [generate_trigrams.trigramLine, String.data_append,
        List.append_assoc])

theorem claim_C8_witness :
    generate_trigrams.example_list [("th", ["a", "b"])] "th" =
      ["a", "b"].take 10 ∧
    generate_trigrams.example_list [] "zz" = List.replicate 10 "example" :=
  ⟨(claim_C8.1 [("th", ["a", "b"])] "th" ["a", "b"] (by decide)).1,
   (claim_C8.2.1 [] "zz" (by decide)).1⟩

/-- Claim C1: with a fully selected window of size `N > 1` (target count at
most the table length), the bigram Normalizer's first weight is 1.00 and
its last weight is 0.70; the word Normalizer (fixed window 500) likewise
on tables of length at least 500; and the worked example
`[("the",100), ("of",50), ("and",10)]` at count 3 yields `[1.00, 0.85, 0.70]`. -/
theorem claim_C1 :
    (∀ (l : List (String × ℚ)) (count : ℤ), 1 < count → count ≤ (l.length : ℤ) →
      ((update_bigrams.normalize_frequencies l count).head?).map
        (fun e => e.2.2) = some 1 ∧
      ((update_bigrams.normalize_frequencies l count).getLast?).map
        (fun e => e.2.2) = some (0.70 : ℚ)) ∧
    (∀ (l : List (String × ℤ)), 500 ≤ l.length →
      ((fetch_common_words.normalize_frequencies l).head?).map
        (fun e => e.2.2) = some 1 ∧
      ((fetch_common_words.normalize_frequencies l).getLast?).map
        (fun e => e.2.2) = some (0.70 : ℚ)) ∧
    update_bigrams.normalize_frequencies [("the", 100), ("of", 50), ("and", 10)] 3 =
      [("the", 100, 1), ("of", 50, 0.85), ("and", 10, 0.70)] := by
  refine ⟨?_, ?_, ?_⟩
  · intro l count h1 h2
    have h0 : (0 : ℤ) ≤ count := by omega
    obtain ⟨n, rfl⟩ : ∃ n : ℕ, (n : ℤ) = count := ⟨count.toNat, Int.toNat_of_nonneg h0⟩
    have hn1 : 1 < n := by exact_mod_cast h1
    have hnl : n ≤ l.length := by exact_mod_cast h2
    have hlen : (pyTake (n : ℤ) l).length = n := by
      simp [pyTake, List.length_take]
      omega
    have hcast : (((n : ℤ) : ℚ)) = (n : ℚ) := by push_cast; ring
    constructor
    · rw [head?_eq_getElem0, getElem?_norm_bigrams]
      have hi : 0 < (pyTake (n : ℤ) l).length := by omega
      rw [List.getElem?_eq_getElem hi]
      simp only [Option.map_some']
      have : pyRound (if 1 < (n : ℤ) then
          1 - (((0 : ℕ) : ℚ) / (((n : ℤ) : ℚ) - 1)) * (30/100) else 1) 2 = 1 := by
        rw [if_pos h1]
        norm_num [pyRound_one]
      rw [this]
    · rw [List.getLast?_eq_getElem?, length_norm_bigrams, hlen,
        getElem?_norm_bigrams]
      have hj : n - 1 < (pyTake (n : ℤ) l).length := by omega
      rw [List.getElem?_eq_getElem hj]
      simp only [Option.map_some']
      have hratio : (((n - 1 : ℕ) : ℚ) / (((n : ℤ) : ℚ) - 1)) = 1 := by
        have hq : (1 : ℚ) < (n : ℚ) := by exact_mod_cast hn1
        rw [hcast, Nat.cast_sub (by omega), Nat.cast_one]
        rw [div_self (by linarith)]
      have : pyRound (if 1 < (n : ℤ) then
          1 - (((n - 1 : ℕ) : ℚ) / (((n : ℤ) : ℚ) - 1)) * (30/100) else 1) 2 =
          (0.70 : ℚ) := by
        rw [if_pos h1, hratio]
        rw [pyRound_eq_of_cast (show ((1 : ℚ) - 1 * (30/100)) * 10 ^ 2 =
          ((70 : ℤ) : ℚ) by norm_num)]
        norm_num
      rw [this]
  · intro l h500
    have hlen : (l.take fetch_common_words.WORD_COUNT).length = 500 := by
      simp [List.length_take, fetch_common_words.WORD_COUNT]
      omega
    constructor
    · rw [head?_eq_getElem0, getElem?_norm_words]
      have hi : 0 < (l.take fetch_common_words.WORD_COUNT).length := by omega
      rw [List.getElem?_eq_getElem hi]
      simp only [Option.map_some']
      have : pyRound (1 - (((0 : ℕ) : ℚ) /
          ((fetch_common_words.WORD_COUNT : ℚ) - 1)) * (30/100)) 3 = 1 := by
        norm_num [pyRound_one]
      rw [this]
    · rw [List.getLast?_eq_getElem?, length_norm_words, hlen, getElem?_norm_words]
      have hj : 500 - 1 < (l.take fetch_common_words.WORD_COUNT).length := by omega
      rw [List.getElem?_eq_getElem hj]
      simp only [Option.map_some']
      have : pyRound (1 - (((500 - 1 : ℕ) : ℚ) /
          ((fetch_common_words.WORD_COUNT : ℚ) - 1)) * (30/100)) 3 = (0.70 : ℚ) := by
        have hidx : ((500 - 1 : ℕ) : ℚ) = 499 := by norm_num
        have hden : ((fetch_common_words.WORD_COUNT : ℚ) - 1) = 499 := by
          norm_num [fetch_common_words.WORD_COUNT]
        rw [hidx, hden, div_self (by norm_num)]
        rw [pyRound_eq_of_cast (show ((1 : ℚ) - 1 * (30/100)) * 10 ^ 3 =
          ((700 : ℤ) : ℚ) by norm_num)]
        norm_num
      rw [this]
  · norm_num [update_bigrams.normalize_frequencies, pyTake, pyRound, pyRound0,
      List.enum, List.enumFrom]

theorem claim_C1_witness :
    (1 : ℤ) < 2 ∧ (2 : ℤ) ≤ (([("aa", 5), ("bb", 3)] :
        List (String × ℚ)).length : ℤ) ∧
    ((update_bigrams.normalize_frequencies [("aa", 5), ("bb", 3)] 2).head?).map
      (fun e => e.2.2) = some 1 ∧
    ((update_bigrams.normalize_frequencies [("aa", 5), ("bb", 3)] 2).getLast?).map
      (fun e => e.2.2) = some (0.70 : ℚ) ∧
    ((fetch_common_words.normalize_frequencies
        (List.replicate 500 ("w", 1))).head?).map (fun e => e.2.2) = some 1 ∧
    ((fetch_common_words.normalize_frequencies
        (List.replicate 500 ("w", 1))).getLast?).map (fun e => e.2.2) =
      some (0.70 : ℚ) := by
  have hb := claim_C1.1 [("aa", 5), ("bb", 3)] 2 (by norm_num) (by norm_num)
  have hlen : (List.replicate 500 (("w", 1) : String × ℤ)).length = 500 :=
    List.length_replicate _ _
  have hw := claim_C1.2.1 (List.replicate 500 ("w", 1)) (le_of_eq hlen.symm)
  exact ⟨by norm_num, by norm_num, hb.1, hb.2, hw.1, hw.2⟩

/-- Claim C7: each Normalizer is monotonically non-increasing in rank over
the selected window (for any count at least 1 where output exists). -/
theorem claim_C7 :
    (∀ (l : List (String × ℚ)) (count : ℤ) (i j : ℕ) (wi wj : String × ℚ × ℚ),
      1 ≤ count → i < j →
      (update_bigrams.normalize_frequencies l count)[i]? = some wi →
      (update_bigrams.normalize_frequencies l count)[j]? = some wj →
      wj.2.2 ≤ wi.2.2) ∧
    (∀ (l : List (String × ℚ)) (count : ℤ) (r : List (String × ℚ × ℚ))
       (i j : ℕ) (wi wj : String × ℚ × ℚ),
      1 ≤ count → i < j →
      generate_trigrams.normalize_frequencies l count = Except.ok r →
      r[i]? = some wi → r[j]? = some wj →
      wj.2.2 ≤ wi.2.2) ∧
    (∀ (l : List (String × ℤ)) (i j : ℕ) (wi wj : String × ℤ × ℚ),
      i < j →
      (fetch_common_words.normalize_frequencies l)[i]? = some wi →
      (fetch_common_words.normalize_frequencies l)[j]? = some wj →
      wj.2.2 ≤ wi.2.2) := by
  have hmono : ∀ (c : ℚ) (i j : ℕ) (p : ℕ), (0 : ℚ) < c → i < j →
      pyRound (1 - ((j : ℚ) / c) * (30/100)) p ≤
        pyRound (1 - ((i : ℚ) / c) * (30/100)) p := by
    intro c i j p hc hij
    apply pyRound_mono
    have hij' : (i : ℚ) ≤ (j : ℚ) := by exact_mod_cast le_of_lt hij
    have : (i : ℚ) / c ≤ (j : ℚ) / c := by
      apply div_le_div_of_nonneg_right hij' (le_of_lt hc)
    nlinarith
  refine ⟨?_, ?_, ?_⟩
  · intro l count i j wi wj hc hij hwi hwj
    rw [getElem?_norm_bigrams] at hwi hwj
    rcases hli : (pyTake count l)[i]? with _ | a
    · rw [hli] at hwi
      cases hwi
    rcases hlj : (pyTake count l)[j]? with _ | b
    · rw [hlj] at hwj
      cases hwj
    rw [hli] at hwi
    rw [hlj] at hwj
    simp only [Option.map_some', Option.some_inj] at hwi hwj
    rw [← hwi, ← hwj]
    by_cases h1 : 1 < count
    · simp only [if_pos h1]
      have hcpos : (0 : ℚ) < (count : ℚ) - 1 := by
        have : (1 : ℚ) < (count : ℚ) := by exact_mod_cast h1
        linarith
      exact hmono _ i j 2 hcpos hij
    · simp only [if_neg h1]
      exact le_rfl
  · intro l count r i j wi wj hc hij hok hwi hwj
    have hcond : ¬(count = 1 ∧ pyTake count l ≠ []) := by
      intro hc2
      obtain ⟨rfl, hne⟩ := hc2
      rw [show generate_trigrams.normalize_frequencies l 1 =
          Except.error "ZeroDivisionError" from by
        simp [generate_trigrams.normalize_frequencies, hne]] at hok
      cases hok
    rw [norm_trigrams_ok l count hcond] at hok
    injection hok with hok
    subst hok
    rw [getElem?_enumMap] at hwi hwj
    rcases hli : (pyTake count l)[i]? with _ | a
    · rw [hli] at hwi
      cases hwi
    rcases hlj : (pyTake count l)[j]? with _ | b
    · rw [hlj] at hwj
      cases hwj
    rw [hli] at hwi
    rw [hlj] at hwj
    simp only [Option.map_some', Option.some_inj] at hwi hwj
    rw [← hwi, ← hwj]
    by_cases h1 : count = 1
    · subst h1
      have : pyTake 1 l = [] := by
        by_contra hne
        exact hcond ⟨rfl, hne⟩
      rw [this] at hli
      simp at hli
    · have h2 : 1 < count := by omega
      have hcpos : (0 : ℚ) < (count : ℚ) - 1 := by
        have : (1 : ℚ) < (count : ℚ) := by exact_mod_cast h2
        linarith
      exact hmono _ i j 2 hcpos hij
  · intro l i j wi wj hij hwi hwj
    rw [getElem?_norm_words] at hwi hwj
    rcases hli : (l.take fetch_common_words.WORD_COUNT)[i]? with _ | a
    · rw [hli] at hwi
      cases hwi
    rcases hlj : (l.take fetch_common_words.WORD_COUNT)[j]? with _ | b
    · rw [hlj] at hwj
      cases hwj
    rw [hli] at hwi
    rw [hlj] at hwj
    simp only [Option.map_some', Option.some_inj] at hwi hwj
    rw [← hwi, ← hwj]
    have hcpos : (0 : ℚ) < (fetch_common_words.WORD_COUNT : ℚ) - 1 := by
      norm_num [fetch_common_words.WORD_COUNT]
    exact hmono _ i j 3 hcpos hij

theorem claim_C7_witness :
    (1 : ℤ) ≤ 3 ∧ (0 : ℕ) < 2 ∧
    ((update_bigrams.normalize_frequencies
        [("the", 100), ("of", 50), ("and", 10)] 3)[2]?.getD
          (("", 0, 0) : String × ℚ × ℚ)).2.2 ≤
      ((update_bigrams.normalize_frequencies
        [("the", 100), ("of", 50), ("and", 10)] 3)[0]?.getD
          (("", 0, 0) : String × ℚ × ℚ)).2.2 := by
  refine ⟨by norm_num, by norm_num, ?_⟩
  have h := claim_C7.1 [("the", 100), ("of", 50), ("and", 10)] 3 0 2
  have hlist : update_bigrams.normalize_frequencies
      [("the", 100), ("of", 50), ("and", 10)] 3 =
      [("the", 100, 1), ("of", 50, 0.85), ("and", 10, 0.70)] := by
    norm_num [update_bigrams.normalize_frequencies, pyTake, pyRound, pyRound0,
      List.enum, List.enumFrom]
  have e0 : (update_bigrams.normalize_frequencies
      [("the", 100), ("of", 50), ("and", 10)] 3)[0]? =
      some (("the", 100, 1) : String × ℚ × ℚ) := by
    rw [hlist]
    rfl
  have e2 : (update_bigrams.normalize_frequencies
      [("the", 100), ("of", 50), ("and", 10)] 3)[2]? =
      some (("and", 10, 0.70) : String × ℚ × ℚ) := by
    rw [hlist]
    rfl
  have := h (("the", 100, 1) : String × ℚ × ℚ) (("and", 10, 0.70) : String × ℚ × ℚ)
    (by norm_num) (by norm_num) e0 e2
  rw [e0, e2]
  simpa using this

/-- Scanning the escaped form of a backslash-free text never contributes an
unescaped quote and never leaves a pending escape. -/
theorem esc_fold (cs : List Char) (hbs : ¬ '\\' ∈ cs) (n : ℕ) :
    ((cs.foldr (fun c acc => if c = '"' then '\\' :: '"' :: acc else c :: acc)
      []).foldl uqStep (n, false)) = (n, false) := by
  induction cs with
  | nil => rfl
  | cons c t ih =>
    have hc : c ≠ '\\' := fun h => hbs (h ▸ List.mem_cons_self c t)
    have ht : ¬ '\\' ∈ t := fun h => hbs (List.mem_cons_of_mem c h)
    by_cases hq : c = '"'
    · subst hq
      rw [List.foldr_cons, if_pos rfl, List.foldl_cons, List.foldl_cons]
      rw [show uqStep (n, false) '\\' = (n, true) from by simp [uqStep]]
      rw [show uqStep (n, true) '"' = (n, false) from by simp [uqStep]]
      exact ih ht
    · rw [List.foldr_cons, if_neg hq, List.foldl_cons]
      rw [show uqStep (n, false) c = (n, false) from by simp [uqStep, hc, hq]]
      exact ih ht

/-- Claim C5 counterexample: the trigram Emitter embeds a quote-bearing
unit text verbatim — the output for unit `a"b` contains no backslash at
all (so nothing was escaped), contains the malformed fragment
`Trigram::new("a"b"`, and has an odd number of unescaped string
delimiters, i.e. the emitted block is not well-formed. -/
theorem claim_C5_counterexample :
    unescapedQuotes (generate_trigrams.generate_rust_code "english"
      [("a\"b", 1, 1)] [] "2026-01-01") % 2 = 1 ∧
    ((generate_trigrams.generate_rust_code "english"
      [("a\"b", 1, 1)] [] "2026-01-01").data.count '\\') = 0 ∧
    isSub ("Trigram::new(\"a\"b\"" : String).data
      (generate_trigrams.generate_rust_code "english"
        [("a\"b", 1, 1)] [] "2026-01-01").data = true := by
  have hfmt : fmtFixed (1 : ℚ) 2 = "1.00" := by
    rw [fmtFixed_eq_of_cast (show (1 : ℚ) * 10 ^ 2 = ((100 : ℤ) : ℚ) by norm_num)]
    decide
  refine ⟨?_, ?_, ?_⟩ <;>
  · simp only [generate_trigrams.generate_rust_code,
      generate_trigrams.trigramHeader, generate_trigrams.trigramLine,
      generate_trigrams.example_list, List.foldl, hfmt]
    decide

/-- Claim C5 (amended): the word pipeline's Emitter escapes literal quotes
in the unit text before embedding it (`a"b` becomes `a\"b`), the escaped
text appears between its two delimiters in the output, and for
backslash-free unit texts the emitted block has exactly the two balanced
delimiters of the entry; the n-gram Emitters embed text verbatim (see the
counterexample). -/
theorem claim_C5_amended :
    (∀ w : String, ¬ '\\' ∈ w.data →
      unescapedQuotes (fetch_common_words.generate_rust_code "english"
        [(w, 100, 0.85)]) = 2) ∧
    (∀ w : String,
      isSub ("\"" ++ fetch_common_words.escape_quotes w ++ "\"").data
        (fetch_common_words.generate_rust_code "english"
          [(w, 100, 0.85)]).data = true) ∧
    fetch_common_words.escape_quotes "a\"b" = "a\\\"b" := by
  have hfmt : fmtFixed (0.85 : ℚ) 3 = "0.850" := by
    rw [fmtFixed_eq_of_cast (show (0.85 : ℚ) * 10 ^ 3 = ((850 : ℤ) : ℚ) by
      norm_num)]
    decide
  refine ⟨?_, ?_, by decide⟩
  · intro w hw
    have hsplit : fetch_common_words.generate_rust_code "english"
        [(w, 100, 0.85)] =
        fetch_common_words.wordHeader "english" ++
          fetch_common_words.wordLine (w, 100, 0.85) ++ "    ]\n\x7d\n\n" := rfl
    have hesc : (fetch_common_words.escape_quotes w).data =
        w.data.foldr (fun c acc =>
          if c = '"' then '\\' :: '"' :: acc else c :: acc) [] := rfl
    rw [unescapedQuotes, hsplit]
    rw [String.data_append, String.data_append, List.foldl_append,
      List.foldl_append]
    rw [show (fetch_common_words.wordHeader "english").data.foldl uqStep
      (0, false) = (0, false) from by decide]
    have hline : fetch_common_words.wordLine (w, 100, 0.85) =
        "        Word::new(\"" ++ fetch_common_words.escape_quotes w ++
          "\", " ++ fmtFixed (0.85 : ℚ) 3 ++ "),\n" := rfl
    rw [hline, hfmt]
    rw [String.data_append, String.data_append, String.data_append,
      String.data_append, List.foldl_append, List.foldl_append,
      List.foldl_append, List.foldl_append]
    rw [show ("        Word::new(\"" : String).data.foldl uqStep (0, false) =
      (1, false) from by decide]
    rw [hesc, esc_fold w.data hw 1]
    decide
  · intro w
    have hsplit : fetch_common_words.generate_rust_code "english"
        [(w, 100, 0.85)] =
        fetch_common_words.wordHeader "english" ++
          fetch_common_words.wordLine (w, 100, 0.85) ++ "    ]\n\x7d\n\n" := rfl
    rw [hsplit]
    apply isSub_append3
    apply isSub_of_parts (("        Word::new(" : String).data)
      ((", " : String).data ++ (fmtFixed (0.85 : ℚ) 3).data ++
        (("),\n" : String).data))
    have hA : ("        Word::new(\"" : String).data =
        ("        Word::new(" : String).data ++ ['"'] := by decide
    have hB : ("\", " : String).data = '"' :: (", " : String).data := by decide
    have hq : ("\"" : String).data = ['"'] := by decide
    simp [fetch_common_words.wordLine, String.data_append, hA, hB, hq,
      List.append_assoc]

theorem claim_C5_witness :
    ¬ '\\' ∈ ("a\"b" : String).data ∧
    unescapedQuotes (fetch_common_words.generate_rust_code "english"
      [("a\"b", 100, 0.85)]) = 2 ∧
    isSub ("\"" ++ fetch_common_words.escape_quotes "a\"b" ++ "\"").data
      (fetch_common_words.generate_rust_code "english"
        [("a\"b", 100, 0.85)]).data = true :=
  ⟨by decide, claim_C5_amended.1 "a\"b" (by decide),
   claim_C5_amended.2.1 "a\"b"⟩

/-- Claim C6: a containment failure is non-fatal — it forces the
per-language flag to false, yet the run still emits the unconditional
Emitter output (the same text an all-passing run with these inputs
produces), and the offending example appears verbatim in the emitted
text. -/
theorem claim_C6 : ∀ (language : String) (top : List (String × ℚ)) (count : ℤ)
    (examples : List (String × List String)) (today : String)
    (r : List (String × ℚ × ℚ)) (t e : String),
    generate_trigrams.normalize_frequencies top count = Except.ok r →
    t ∈ (pyTake count top).map Prod.fst →
    e ∈ (dictGet examples t []).take 10 →
    pyIn (pyLower t) (pyLower e) = false →
    generate_trigrams.validateLanguage top count examples = false ∧
    generate_trigrams.run_language language top count examples today =
      (false, Except.ok (generate_trigrams.generate_rust_code language r
        examples today)) ∧
    isSub e.data (generate_trigrams.generate_rust_code language r examples
      today).data = true := by
  intro language top count examples today r t e hok ht he hfail
  rcases List.mem_map.mp ht with ⟨p, hp, hpt⟩
  rcases hfind : dictFind examples t with _ | lx
  · rw [show dictGet examples t [] = [] from by simp [dictGet, hfind]] at he
    simp at he
  have hgetx : dictGet examples t [] = lx := by simp [dictGet, hfind]
  have hmem : e ∈ lx := List.mem_of_mem_take (hgetx ▸ he)
  have hvflag : (generate_trigrams.validate_examples t
      (dictGet examples t [])).1 = false := by
    rw [validate_examples_eq, hgetx]
    simp only
    apply List.all_eq_false.mpr
    exact ⟨e, hmem, by simp [hfail]⟩
  have hv : generate_trigrams.validateLanguage top count examples = false := by
    rw [validateLanguage_eq]
    apply List.all_eq_false.mpr
    refine ⟨p, hp, ?_⟩
    rw [hpt, hvflag]
    simp
  refine ⟨hv, ?_, ?_⟩
  · rw [generate_trigrams.run_language, hv, hok]
    rfl
  · by_cases hcd : count = 1 ∧ pyTake count top ≠ []
    · obtain ⟨rfl, hne⟩ := hcd
      rw [show generate_trigrams.normalize_frequencies top 1 =
          Except.error "ZeroDivisionError" from by
        simp [generate_trigrams.normalize_frequencies, hne]] at hok
      cases hok
    · rw [norm_trigrams_ok top count hcd] at hok
      injection hok with hok
      subst hok
      have hmapeq : ((pyTake count top).enum.map
          (fun p => (p.2.1, p.2.2,
            pyRound (1 - ((p.1 : ℚ) / ((count : ℚ) - 1)) * (30/100)) 2))).map
          (fun z => z.1) = (pyTake count top).map Prod.fst := by
        rw [List.map_map, show ((fun (z : String × ℚ × ℚ) => z.1) ∘
          (fun p : ℕ × (String × ℚ) => (p.2.1, p.2.2,
            pyRound (1 - ((p.1 : ℚ) / ((count : ℚ) - 1)) * (30/100)) 2))) =
          (Prod.fst ∘ (Prod.snd : ℕ × (String × ℚ) → String × ℚ)) from rfl]
        rw [← List.map_map, List.enum_map_snd]
      have ht' : t ∈ ((pyTake count top).enum.map
          (fun p => (p.2.1, p.2.2,
            pyRound (1 - ((p.1 : ℚ) / ((count : ℚ) - 1)) * (30/100)) 2))).map
          (fun z => z.1) := by
        rw [hmapeq]
        exact ht
      rcases List.mem_map.mp ht' with ⟨x, hxr, hx1⟩
      have hcode : generate_trigrams.generate_rust_code language
          ((pyTake count top).enum.map
            (fun p => (p.2.1, p.2.2,
              pyRound (1 - ((p.1 : ℚ) / ((count : ℚ) - 1)) * (30/100)) 2)))
          examples today =
          generate_trigrams.trigramHeader language today ++
            emitChunks (generate_trigrams.trigramLine examples)
              ((pyTake count top).enum.map
                (fun p => (p.2.1, p.2.2,
                  pyRound (1 - ((p.1 : ℚ) / ((count : ℚ) - 1)) * (30/100)) 2))) ++
            "    ]\n\x7d\n" := by
        rw [generate_trigrams.generate_rust_code, foldl_append_emitChunks]
      rw [hcode]
      apply isSub_append3
      have hex : e ∈ generate_trigrams.example_list examples x.1 := by
        rw [hx1]
        have : dictGet examples t (List.replicate 10 "example") = lx := by
          simp [dictGet, hfind]
        rw [generate_trigrams.example_list, this]
        exact hgetx ▸ he
      have hjoin : isSub e.data (pyJoin "\", \""
          (generate_trigrams.example_list examples x.1)).data = true :=
        isSub_mem_pyJoin _ _ _ hex
      have hline : isSub (pyJoin "\", \""
          (generate_trigrams.example_list examples x.1)).data
          (generate_trigrams.trigramLine examples x).data = true := by
        apply isSub_of_parts
          (("        // Corpus: " ++ fmtFixed x.2.1 2 ++ "%\n" ++
            "        Trigram::new(\"" ++ x.1 ++ "\", " ++ fmtFixed x.2.2 2 ++
            ", &[\"").data)
          (("\"]),\n" : String).data)
        simp [generate_trigrams.trigramLine, String.data_append,
          List.append_assoc]
      exact isSub_trans (isSub_trans hjoin hline)
        (isSub_emitChunks (generate_trigrams.trigramLine examples) _ x hxr)

theorem claim_C6_witness :
    generate_trigrams.normalize_frequencies [("th", 3.56), ("he", 3.07)] 2 =
      Except.ok [("th", 3.56, 1), ("he", 3.07, 0.70)] ∧
    generate_trigrams.validateLanguage [("th", 3.56), ("he", 3.07)] 2
      [("th", ["the", "cat"])] = false ∧
    isSub ("cat" : String).data
      (generate_trigrams.generate_rust_code "english"
        [("th", 3.56, 1), ("he", 3.07, 0.70)] [("th", ["the", "cat"])]
        "2026-01-01").data = true := by
  have hnorm : generate_trigrams.normalize_frequencies
      [("th", 3.56), ("he", 3.07)] 2 =
      Except.ok [("th", 3.56, 1), ("he", 3.07, 0.70)] := by
    norm_num [generate_trigrams.normalize_frequencies, pyTake, pyRound,
      pyRound0, List.enum, List.enumFrom]
  have h := claim_C6 "english" [("th", 3.56), ("he", 3.07)] 2
    [("th", ["the", "cat"])] "2026-01-01"
    [("th", 3.56, 1), ("he", 3.07, 0.70)] "th" "cat" hnorm
    (by decide) (by decide) (by decide)
  exact ⟨hnorm, h.1, h.2.2⟩
